import Mathlib

/-!
Verification development for the gallery media viewer.

The definitions below are shallow embeddings of the Rust source:
* `src/image_entry.rs` — format sniffing (`try_guess_format`), the decode
  dispatch cascade (`load_image`), and the individual decode stages;
* `src/video_entry.rs` — the video session state touched by `seek` /
  `seek_relative`;
* `src/utils.rs` — the pure sizing helpers `calculate_contain_size` and
  `calculate_thumbnail_layout`.

Machine integers are modelled as `Nat` / `Int` with explicit two's-complement
conversions where the Rust code casts between `u64` and `i64`; `f32`
arithmetic in the sizing helpers is modelled exactly over `ℚ` (the properties
at stake are order-theoretic branch selections, not rounding behaviour).
Results reported by external decoder crates (frame counts, embedded image
counts, success of a library call) are abstracted as explicit parameters of
the corresponding stage function; everything downstream of those reports is
translated from the repository source.
-/

namespace Gallery

/-- Error produced by a failed exact read of the 256-byte header window
(Rust `read_exact` on a too-short file). -/
inductive IoError
  | unexpectedEof
  deriving DecidableEq

/-- Format tag `ImageFormat` from `src/image_entry.rs` (lines 132–140). -/
inductive ImageFormat
  | Dicom
  | Rpgmv
  | JpegLs
  | JBig1
  | JBig2
  | Unknown
  deriving DecidableEq

/-- The DICOM magic `b"DICM"` checked at offset 128 (`image_entry.rs:185`). -/
def dicm_bytes : List ℕ := [0x44, 0x49, 0x43, 0x4D]

/-- The legacy-engine (RPGMV) signature checked at offset 0
(`image_entry.rs:190`). -/
def rpgmv_bytes : List ℕ := [0x52, 0x50, 0x47, 0x4D, 0x56]

/-- The JPEG-LS start-of-image marker checked at offset 0
(`image_entry.rs:196`). -/
def jpeg_ls_bytes : List ℕ := [0xFF, 0xD8, 0xFF, 0xF7]

/-- Sniffer `ImageEntry::try_guess_format` (`image_entry.rs:176–202`).
The file is a byte list; `read_exact` into a 256-byte buffer succeeds
exactly when the file holds at least 256 bytes, and then the buffer is the
first 256 bytes.  The three magic checks and the `JBig2` fallthrough are
translated verbatim, including the (always-true) buffer-length guards. -/
def try_guess_format (file : List ℕ) : Except IoError ImageFormat :=
  if file.length < 256 then .error .unexpectedEof
  else
    let buffer := file.take 256
    if 132 ≤ buffer.length ∧ (buffer.drop 128).take 4 = dicm_bytes then
      .ok .Dicom
    else if 5 ≤ buffer.length ∧ buffer.take 5 = rpgmv_bytes then
      .ok .Rpgmv
    else if 4 ≤ buffer.length ∧ buffer.take 4 = jpeg_ls_bytes then
      .ok .JpegLs
    else
      .ok .JBig2

/-- The decode stages that `ImageEntry::load_image` can route to after the
native loader fails (`image_entry.rs:290–307`). -/
inductive Stage
  | dicomLoader
  | rpgmvLoader
  | jpegLsLoader
  | jbigLoader
  | rawLoader
  | ffmpegLoader
  deriving DecidableEq

/-- The ordered list of specialized stages `load_image` attempts for a given
sniffed format, translated from the `match format` in
`image_entry.rs:290–307`: each arm calls exactly one loader, except
`Unknown`, which tries the sensor-raw pipeline and falls through to ffmpeg
video-frame extraction on its failure. -/
def dispatchAfterNative : ImageFormat → List Stage
  | .Dicom => [.dicomLoader]
  | .Rpgmv => [.rpgmvLoader]
  | .JpegLs => [.jpegLsLoader]
  | .JBig1 => [.jbigLoader]
  | .JBig2 => [.jbigLoader]
  | .Unknown => [.rawLoader, .ffmpegLoader]

/-! ## Decode-stage results

`Visual` abstracts the `Image` enum of `src/image_entry.rs` (lines 111–114)
down to what the invariant claims observe: a `Still`, or an `Animated`
carrying its frame count.  `DecodeOutcome` distinguishes an `Ok` result, an
`Err` returned to the cascade, and `crash` — a Rust panic (an `unwrap()` on
`None`, or an out-of-bounds index / debug-mode arithmetic underflow). -/

/-- Decoded visual, by shape: `Image::Still` or `Image::Animated` with the
number of frames in `AnimatedImage.frames`. -/
inductive Visual
  | Still
  | Animated (frames : ℕ)
  deriving DecidableEq

/-- Outcome of one decode stage: `ok`, a recoverable `err`, or `crash`
(the stage panics instead of returning). -/
inductive DecodeOutcome
  | ok (v : Visual)
  | err
  | crash
  deriving DecidableEq

/-- Stage `ImageEntry::load_image_native` (`image_entry.rs:310–383`), abstracted
over the library reports it branches on: `container_frames` is the number of
frames collected from the GIF/WebP/APNG container path (0 when the file is
not such a container or holds no frames), and `decode_ok` is whether
`reader.decode()` succeeds.  On decode failure the stage returns `Err`
(lines 360–365) even if container frames were collected; when no container
frames exist, the single decoded image is pushed (line 370); one frame
collapses to `Still` (lines 373–378), otherwise an `Animated` with all
collected frames is built (lines 380–382). -/
def load_image_native (container_frames : ℕ) (decode_ok : Bool) : DecodeOutcome :=
  if decode_ok then
    let frames := if container_frames = 0 then 1 else container_frames
    if frames = 1 then .ok .Still else .ok (.Animated frames)
  else .err

/-- Stage `ImageEntry::load_dicom_image` (`image_entry.rs:628–668`), abstracted
over the DICOM library's reports: `open_ok` is whether `open_file` /
`decode_pixel_data` / `to_dynamic_image` all succeed, `frames_count` is
`pixel_data.number_of_frames()`.  Exactly one frame collapses to `Still`
(lines 648–654); any other count — including zero — builds an `Animated`
from the collected frames (lines 656–667). -/
def load_dicom_image (open_ok : Bool) (frames_count : ℕ) : DecodeOutcome :=
  if open_ok then
    if frames_count = 1 then .ok .Still else .ok (.Animated frames_count)
  else .err

/-- Stage `ImageEntry::load_image_ffmpeg` (`image_entry.rs:388–514`), abstracted
over `open_ok` (the fallible ffmpeg setup calls) and `decoded_buffers`, the
number of frame buffers collected from the packet loop.  One buffer returns
a `Still` (lines 469–479).  Otherwise the delay loop runs
`for i in 0..pts_values.len() - 1` (line 482): with zero buffers,
`0usize - 1` panics in debug builds and wraps to `usize::MAX` in release
builds, where `pts_values[i + 1]` then indexes out of bounds — a panic
either way, modelled as `crash`.  Two or more buffers build an `Animated`
with one frame per buffer (lines 494–513). -/
def load_image_ffmpeg (open_ok : Bool) (decoded_buffers : ℕ) : DecodeOutcome :=
  if open_ok then
    if decoded_buffers = 1 then .ok .Still
    else if decoded_buffers = 0 then .crash
    else .ok (.Animated decoded_buffers)
  else .err

/-- Stage `ImageEntry::load_jbig_image` (`image_entry.rs:735–758`), abstracted
over `open_ok` (`Document::open`) and `doc_images`, the number of embedded
images in the document.  Each embedded image yields a `Still`; the stage
returns `images.pop().unwrap()` (line 757), which panics when the document
holds zero images, modelled as `crash`. -/
def load_jbig_image (open_ok : Bool) (doc_images : ℕ) : DecodeOutcome :=
  if open_ok then
    if doc_images = 0 then .crash else .ok .Still
  else .err

/-- The invariant claimed of cascade results: no `Animated` with fewer than
two frames is ever observable. -/
def goodVisual : Visual → Prop
  | .Still => True
  | .Animated n => 2 ≤ n

/-! ## Video session state (`src/video_entry.rs`)

The observable per-session playback state touched by `seek` and
`seek_relative`: the current position and total duration (both `u64`
milliseconds in Rust, here `ℕ` together with exact `u64`/`i64` cast
functions), and the look-ahead `FramesBuffer` content (frames abstracted to
an opaque list). -/

/-- Two's-complement width constants for the `u64`/`i64` casts in
`seek_relative`. -/
def u64_mod : ℕ := 2 ^ 64

/-- Constant `2 ^ 63`, the `i64` sign boundary. -/
def i64_half : ℕ := 2 ^ 63

/-- Rust `x as i64` on a `u64` value: reinterpret the low 64 bits as a
signed two's-complement integer. -/
def u64_as_i64 (n : ℕ) : ℤ :=
  if n % u64_mod < i64_half then ((n % u64_mod : ℕ) : ℤ)
  else ((n % u64_mod : ℕ) : ℤ) - (u64_mod : ℤ)

/-- Wrapping `i64` arithmetic result (release-build overflow semantics):
reduce an integer into `[-2^63, 2^63)`. -/
def i64_wrap (z : ℤ) : ℤ :=
  (z + (i64_half : ℤ)) % (u64_mod : ℤ) - (i64_half : ℤ)

/-- Rust `z as u64` on an `i64` value: reinterpret two's complement as
unsigned, i.e. reduce modulo `2^64`. -/
def i64_as_u64 (z : ℤ) : ℕ :=
  (z % (u64_mod : ℤ)).toNat

/-- The session state read and written by `VideoEntry::seek`
(`video_entry.rs:449–473`): `current_time` and `video_duration` in
milliseconds, and the look-ahead buffer frames. -/
structure VideoState where
  current_time : ℕ
  video_duration : ℕ
  frames_buffer : List ℕ
  deriving DecidableEq

/-- Model of `VideoEntry::seek` (`video_entry.rs:449–473`): clamp the target with
`time.min(video_duration)` then `time.max(0)` (a no-op on an unsigned
value), issue the demuxer and audio-sink seeks (external effects, not part
of the session state), clear the look-ahead buffer, and store the clamped
target as the current position. -/
def seek (time : ℕ) (s : VideoState) : VideoState :=
  let time := min time s.video_duration
  let time := max time 0
  { s with current_time := time, frames_buffer := [] }

/-- Model of `VideoEntry::seek_relative` (`video_entry.rs:475–479`):
`new_time = self.current_time as i64 + time`, then `seek(new_time as u64)`.
The casts are the exact two's-complement reinterpretations performed by
Rust `as`. -/
def seek_relative (time : ℤ) (s : VideoState) : VideoState :=
  let new_time := i64_wrap (u64_as_i64 s.current_time + time)
  seek (i64_as_u64 new_time) s

/-- The outcomes of the fallible steps of `VideoEntry::new`
(`video_entry.rs:115–255`), in source order: the two `format::input` opens,
presence of the best video and audio streams, the two codec-context
constructions, the two decoder constructions, the scaler construction, and
the duration eventually stored on the entry. -/
structure VideoProbe where
  video_open_ok : Bool
  audio_open_ok : Bool
  has_video_stream : Bool
  has_audio_stream : Bool
  video_codec_ctx_ok : Bool
  audio_codec_ctx_ok : Bool
  video_decoder_ok : Bool
  audio_decoder_ok : Bool
  scaler_ok : Bool
  duration : ℕ
  deriving DecidableEq

/-- Constructor `VideoEntry::new` (`video_entry.rs:115–255`): each fallible step is
checked in source order and any failure returns `None`; in particular the
absence of an audio stream (lines 145–151) aborts construction.  On success
the session starts at position 0 with an empty look-ahead buffer (the
initial eager audio decode does not touch these fields). -/
def VideoEntry_new (p : VideoProbe) : Option VideoState :=
  if ¬p.video_open_ok then none
  else if ¬p.audio_open_ok then none
  else if ¬p.has_video_stream then none
  else if ¬p.has_audio_stream then none
  else if ¬p.video_codec_ctx_ok then none
  else if ¬p.audio_codec_ctx_ok then none
  else if ¬p.video_decoder_ok then none
  else if ¬p.audio_decoder_ok then none
  else if ¬p.scaler_ok then none
  else some { current_time := 0, video_duration := p.duration, frames_buffer := [] }

/-! ## Sizing helpers (`src/utils.rs`)

`f32` arithmetic modelled exactly over `ℚ`; the branch structure is
translated verbatim. -/

/-- Helper `calculate_contain_size` (`utils.rs:158–176`): pick the axis by
comparing aspect ratios, scale the other axis by the image aspect ratio,
and clamp each output with `.max(1.0)`. -/
def calculate_contain_size (container_width container_height img_width img_height : ℚ) :
    ℚ × ℚ :=
  let container_aspect_ratio := container_width / container_height
  let img_aspect_ratio := img_width / img_height
  if container_aspect_ratio < img_aspect_ratio then
    (max container_width 1, max (container_width / img_aspect_ratio) 1)
  else
    (max (container_height * img_aspect_ratio) 1, max container_height 1)

/-- The cell width the thumbnail layout computes for a column count
`columns` (`utils.rs:127–128`): subtract the inter-column gaps and divide
the remaining width evenly. -/
def cell_width (available_width thumbnail_gap : ℚ) (columns : ℕ) : ℚ :=
  (available_width - ((columns : ℚ) - 1) * thumbnail_gap) / (columns : ℚ)

/-- A column count qualifies when its cell width is at least the minimum
thumbnail width (`utils.rs:130`). -/
def qualifies (available_width min_thumbnail_width thumbnail_gap : ℚ) (columns : ℕ) : Prop :=
  min_thumbnail_width ≤ cell_width available_width thumbnail_gap columns

instance (aw mw gap : ℚ) (c : ℕ) : Decidable (qualifies aw mw gap c) :=
  inferInstanceAs (Decidable (_ ≤ _))

/-- The descending loop of `calculate_thumbnail_layout` (`utils.rs:126–133`):
try `columns = n, n-1, …, 1` and return the first column count whose cell
width is at least the minimum; with the range exhausted, fall back to
`(1, available_width)` (`utils.rs:135`). -/
def thumbnail_layout_loop (available_width min_thumbnail_width thumbnail_gap : ℚ) :
    ℕ → ℕ × ℚ
  | 0 => (1, available_width)
  | n + 1 =>
    let total_gaps := (n : ℚ) * thumbnail_gap
    let max_thumbnail_width := (available_width - total_gaps) / ((n : ℚ) + 1)
    if min_thumbnail_width ≤ max_thumbnail_width then (n + 1, max_thumbnail_width)
    else thumbnail_layout_loop available_width min_thumbnail_width thumbnail_gap n

/-- Helper `calculate_thumbnail_layout` (`utils.rs:120–136`). -/
def calculate_thumbnail_layout (available_width min_thumbnail_width thumbnail_gap : ℚ)
    (max_columns_count : ℕ) : ℕ × ℚ :=
  thumbnail_layout_loop available_width min_thumbnail_width thumbnail_gap max_columns_count

end Gallery

/-! ## Claim theorems -/

namespace Gallery

/-- Claim C9: for every file shorter than the 256-byte header window, the
format sniffer returns an I/O error that propagates to the caller rather
than a format tag; sniffing never silently succeeds with a partial read. -/
theorem short_file_sniff_error (file : List ℕ) (h : file.length < 256) :
    try_guess_format file = .error .unexpectedEof := by
  unfold try_guess_format
  rw [if_pos h]

/-- Witness for C9 at the empty file. -/
theorem short_file_sniff_error_witness :
    try_guess_format [] = .error .unexpectedEof :=
  short_file_sniff_error [] (by decide)

/-- Claim C3: every 256-byte header window carrying the DICM magic at
offset 128 is classified `Dicom`, regardless of all other byte values (the
DICOM rule is checked first, before the legacy-engine and JPEG-LS rules),
and the dispatcher then routes `Dicom` to the DICOM decoder alone. -/
theorem dicom_magic_highest_priority (file : List ℕ) (hlen : 256 ≤ file.length)
    (hmagic : ((file.take 256).drop 128).take 4 = dicm_bytes) :
    try_guess_format file = .ok .Dicom ∧
    dispatchAfterNative .Dicom = [Stage.dicomLoader] := by
  refine ⟨?_, rfl⟩
  unfold try_guess_format
  rw [if_neg (by omega)]
  simp only []
  rw [if_pos ⟨by rw [List.length_take]; omega, hmagic⟩]

set_option maxRecDepth 4000 in
/-- Witness for C3: a header that starts with the legacy-engine signature
and also carries DICM at offset 128 is still classified `Dicom`. -/
theorem dicom_magic_highest_priority_witness :
    try_guess_format
      (rpgmv_bytes ++ List.replicate 123 0 ++ dicm_bytes ++ List.replicate 124 0) =
      .ok .Dicom :=
  (dicom_magic_highest_priority _ (by decide) (by decide)).1

/-- Any format tag the sniffer actually returns is distinct from `Unknown`:
the fallthrough arm of `try_guess_format` returns `JBig2`. -/
lemma sniffer_never_unknown (f : List ℕ) (fmt : ImageFormat)
    (h : try_guess_format f = .ok fmt) : fmt ≠ .Unknown := by
  unfold try_guess_format at h
  simp only [] at h
  split_ifs at h <;>
    first
      | exact Except.noConfusion h
      | (injection h with h; subst h; decide)

set_option maxRecDepth 4000 in
/-- Counterexample to claim C2: on an all-zero 256-byte header (matching
none of the three magic signatures) the sniffer returns `JBig2`, not
`Unknown`, and the dispatcher then attempts only the bilevel-document
stage — not bilevel followed by sensor-raw and video-frame extraction. -/
theorem sniffer_fallthrough_counterexample :
    try_guess_format (List.replicate 256 0) = .ok .JBig2 ∧
    ImageFormat.JBig2 ≠ ImageFormat.Unknown ∧
    dispatchAfterNative .JBig2 = [Stage.jbigLoader] ∧
    dispatchAfterNative .JBig2 ≠ [Stage.jbigLoader, .rawLoader, .ffmpegLoader] :=
  ⟨by rfl, by decide, rfl, by decide⟩

/-- Claim C2 as amended: a header window matching none of the three magic
signatures is classified `JBig2` (the bilevel-document tag), the dispatcher
then attempts only bilevel-document decode, and the `Unknown` tag — whose
dispatch arm is sensor-raw followed by video-frame extraction — is never
returned by the sniffer. -/
theorem sniffer_fallthrough_is_bilevel (file : List ℕ) (hlen : 256 ≤ file.length)
    (hd : ((file.take 256).drop 128).take 4 ≠ dicm_bytes)
    (hr : (file.take 256).take 5 ≠ rpgmv_bytes)
    (hj : (file.take 256).take 4 ≠ jpeg_ls_bytes) :
    try_guess_format file = .ok .JBig2 ∧
    dispatchAfterNative .JBig2 = [Stage.jbigLoader] ∧
    (∀ (f : List ℕ) (fmt : ImageFormat), try_guess_format f = .ok fmt → fmt ≠ .Unknown) := by
  refine ⟨?_, rfl, sniffer_never_unknown⟩
  unfold try_guess_format
  rw [if_neg (by omega)]
  simp only []
  rw [if_neg (by exact fun hc => hd hc.2), if_neg (by exact fun hc => hr hc.2),
    if_neg (by exact fun hc => hj hc.2)]

set_option maxRecDepth 4000 in
/-- Witness for the amended C2 at the all-zero header. -/
theorem sniffer_fallthrough_is_bilevel_witness :
    try_guess_format (List.replicate 256 0) = .ok .JBig2 :=
  (sniffer_fallthrough_is_bilevel (List.replicate 256 0) (by decide)
    (by decide) (by decide) (by decide)).1

/-- Counterexample to claim C4: the DICOM stage with a reported frame count
of zero successfully returns an `Animated` with zero frames, which has
fewer than two frames. -/
theorem dicom_zero_frames_counterexample :
    load_dicom_image true 0 = .ok (.Animated 0) ∧ ¬ goodVisual (.Animated 0) :=
  ⟨rfl, by simp [goodVisual]⟩

/-- Every `Ok` result of the native stage is a `Still` or an `Animated`
with at least two frames. -/
lemma load_image_native_good (k : ℕ) (b : Bool) (v : Visual)
    (h : load_image_native k b = .ok v) : goodVisual v := by
  unfold load_image_native at h
  simp only [] at h
  split_ifs at h <;>
    first
      | exact Except.noConfusion h
      | (injection h with h; subst h; simp [goodVisual]; omega)
      | (injection h with h; subst h; simp [goodVisual])

/-- Every `Ok` result of the DICOM stage with a nonzero reported frame
count is a `Still` or an `Animated` with at least two frames. -/
lemma load_dicom_image_good (k : ℕ) (b : Bool) (v : Visual) (hk : k ≠ 0)
    (h : load_dicom_image b k = .ok v) : goodVisual v := by
  unfold load_dicom_image at h
  split_ifs at h <;>
    first
      | exact Except.noConfusion h
      | (injection h with h; subst h; simp [goodVisual]; omega)
      | (injection h with h; subst h; simp [goodVisual])

/-- Every `Ok` result of the ffmpeg extraction stage is a `Still` or an
`Animated` with at least two frames (zero decoded frames panic instead). -/
lemma load_image_ffmpeg_good (k : ℕ) (b : Bool) (v : Visual)
    (h : load_image_ffmpeg b k = .ok v) : goodVisual v := by
  unfold load_image_ffmpeg at h
  split_ifs at h <;>
    first
      | exact Except.noConfusion h
      | (injection h with h; subst h; simp [goodVisual]; omega)
      | (injection h with h; subst h; simp [goodVisual])

/-- Every `Ok` result of the bilevel-document stage is a `Still`. -/
lemma load_jbig_image_good (k : ℕ) (b : Bool) (v : Visual)
    (h : load_jbig_image b k = .ok v) : goodVisual v := by
  unfold load_jbig_image at h
  split_ifs at h <;>
    first
      | exact Except.noConfusion h
      | (injection h with h; subst h; simp [goodVisual]; omega)
      | (injection h with h; subst h; simp [goodVisual])

/-- Claim C4 as amended: for every successful decode through any cascade
stage, a single-frame result is returned as `Still` and every `Animated`
result holds at least two frames — with the proviso that the DICOM stage
satisfies this only when its reported frame count is nonzero (a zero-frame
DICOM report yields an `Animated` with zero frames, the counterexample). -/
theorem cascade_animated_spec (k : ℕ) (b : Bool) (v : Visual) :
    (load_image_native k b = .ok v → goodVisual v) ∧
    (k ≠ 0 → load_dicom_image b k = .ok v → goodVisual v) ∧
    (load_image_ffmpeg b k = .ok v → goodVisual v) ∧
    (load_jbig_image b k = .ok v → goodVisual v) :=
  ⟨load_image_native_good k b v, fun hk => load_dicom_image_good k b v hk,
    load_image_ffmpeg_good k b v, load_jbig_image_good k b v⟩

/-- Witness for the amended C4: a three-frame DICOM decode yields a visual
with at least two frames. -/
theorem cascade_animated_spec_witness : goodVisual (Visual.Animated 3) :=
  (cascade_animated_spec 3 true (Visual.Animated 3)).2.1 (by decide) (by rfl)

/-- Claim C5, evaluated at the failing inputs: the bilevel-document stage
on a document with zero embedded images panics (`images.pop().unwrap()`),
and the video-frame extraction stage with zero decoded frames panics
(`pts_values.len() - 1` underflow / out-of-bounds index) — neither returns
a value or an error as the claim states. -/
theorem zero_image_decode_crashes :
    load_jbig_image true 0 = .crash ∧ load_image_ffmpeg true 0 = .crash :=
  ⟨rfl, rfl⟩

/-- Claim C1, evaluated at the failing input: `seek_relative (-5000)` on a
session at `current_time = 2000` with `video_duration = 10000` computes
`2000 - 5000 = -3000` as `i64`, casts it to `u64` (wrapping to
`2^64 - 3000`), and `seek` clamps that to the duration — the session lands
at 10000 (the end of the video), not at 0 as the claim states. -/
theorem seek_relative_negative_wraps :
    (seek_relative (-5000) ⟨2000, 10000, []⟩).current_time = 10000 ∧
    (seek_relative (-5000) ⟨2000, 10000, []⟩).current_time ≠ 0 :=
  ⟨by decide, by decide⟩

/-- Claim C8: `seek t` sets the current position to `t` clamped to
`[0, duration]` (on naturals, `min t duration`), clears the look-ahead
buffer, and is idempotent — a second identical seek leaves the session
state unchanged. -/
theorem seek_idempotent_clamps (t : ℕ) (s : VideoState) :
    seek t (seek t s) = seek t s ∧
    (seek t s).current_time = min t s.video_duration ∧
    (seek t s).frames_buffer = [] := by
  refine ⟨rfl, ?_, rfl⟩
  show max (min t s.video_duration) 0 = min t s.video_duration
  omega

/-- Claim C10: whenever the opened file has no audio stream, `VideoEntry::new`
returns `None` — a silent video cannot be opened for playback even when its
video stream is present and decodable. -/
theorem no_audio_stream_no_entry (p : VideoProbe) (h : p.has_audio_stream = false) :
    VideoEntry_new p = none := by
  unfold VideoEntry_new
  split_ifs <;> simp_all

/-- Witness for C10: a probe where every other step succeeds but no audio
stream exists still yields `none`. -/
theorem no_audio_stream_no_entry_witness :
    VideoEntry_new ⟨true, true, true, false, true, true, true, true, true, 0⟩ = none :=
  no_audio_stream_no_entry _ rfl

/-- Counterexample to claim C6: on the positive container `(1/2, 1/2)` with
content `(100, 100)` the helper returns `(1, 1)` — the 1.0 floor makes the
result exceed the container, so the returned dimensions are not `≤` the
container on both axes. -/
theorem contain_size_counterexample :
    calculate_contain_size (1/2) (1/2) 100 100 = (1, 1) ∧
    ¬ (calculate_contain_size (1/2) (1/2) 100 100).1 ≤ 1/2 := by
  constructor <;> norm_num [calculate_contain_size]

/-- Claim C6 as amended: for container dimensions each at least 1 and
positive content dimensions, the result is `≤` the container on both axes
and each component is `≥ 1`; the content's aspect ratio is preserved
exactly whenever the 1.0 floor does not trigger on either output
(hypotheses `1 ≤ cw / (iw / ih)` and `1 ≤ ch * (iw / ih)`). -/
theorem contain_size_spec (cw ch iw ih : ℚ) (hcw : 1 ≤ cw) (hch : 1 ≤ ch)
    (hiw : 0 < iw) (hih : 0 < ih) :
    (calculate_contain_size cw ch iw ih).1 ≤ cw ∧
    (calculate_contain_size cw ch iw ih).2 ≤ ch ∧
    1 ≤ (calculate_contain_size cw ch iw ih).1 ∧
    1 ≤ (calculate_contain_size cw ch iw ih).2 ∧
    (1 ≤ cw / (iw / ih) → 1 ≤ ch * (iw / ih) →
      (calculate_contain_size cw ch iw ih).1 * ih =
        (calculate_contain_size cw ch iw ih).2 * iw) := by
  have hch0 : (0 : ℚ) < ch := lt_of_lt_of_le one_pos hch
  have hia : (0 : ℚ) < iw / ih := div_pos hiw hih
  have hiw' : iw ≠ 0 := ne_of_gt hiw
  have hih' : ih ≠ 0 := ne_of_gt hih
  simp only [calculate_contain_size]
  rcases lt_or_le (cw / ch) (iw / ih) with h | h
  · rw [if_pos h]
    have h2 : cw ≤ ch * (iw / ih) := by
      have h3 : cw < (iw / ih) * ch := (div_lt_iff₀ hch0).mp h
      rw [mul_comm] at h3
      exact h3.le
    have hdiv : cw / (iw / ih) ≤ ch := (div_le_iff₀ hia).mpr h2
    refine ⟨max_le le_rfl hcw, max_le hdiv hch, le_max_right _ _, le_max_right _ _, ?_⟩
    intro h1 _
    rw [max_eq_left hcw, max_eq_left h1]
    field_simp
  · rw [if_neg (not_lt.mpr h)]
    have h2 : ch * (iw / ih) ≤ cw := by
      have h3 : (iw / ih) * ch ≤ cw := (le_div_iff₀ hch0).mp h
      rwa [mul_comm] at h3
    refine ⟨max_le h2 hcw, max_le le_rfl hch, le_max_right _ _, le_max_right _ _, ?_⟩
    intro _ h1
    rw [max_eq_left h1, max_eq_left hch]
    field_simp

/-- Witness for the amended C6 at container `(2, 2)` and content `(1, 1)`. -/
theorem contain_size_spec_witness :
    (calculate_contain_size 2 2 1 1).1 ≤ 2 ∧
    (calculate_contain_size 2 2 1 1).2 ≤ 2 ∧
    1 ≤ (calculate_contain_size 2 2 1 1).1 ∧
    1 ≤ (calculate_contain_size 2 2 1 1).2 ∧
    (1 ≤ (2 : ℚ) / (1 / 1) → 1 ≤ (2 : ℚ) * (1 / 1) →
      (calculate_contain_size 2 2 1 1).1 * 1 = (calculate_contain_size 2 2 1 1).2 * 1) :=
  contain_size_spec 2 2 1 1 (by norm_num) (by norm_num) (by norm_num) (by norm_num)

/-- Cast arithmetic for the cell width at a successor column count. -/
lemma cell_width_succ (aw gap : ℚ) (n : ℕ) :
    cell_width aw gap (n + 1) = (aw - (n : ℚ) * gap) / ((n : ℚ) + 1) := by
  unfold cell_width
  push_cast
  ring_nf

/-- Full characterization of the descending layout loop: the returned
column count is at least 1; no strictly larger count within range
qualifies; when some count in range qualifies, the returned count
qualifies, is in range, and the returned width is its cell width; when
none qualifies the fallback `(1, available_width)` is returned. -/
lemma thumbnail_layout_loop_spec (aw mw gap : ℚ) (n : ℕ) :
    1 ≤ (thumbnail_layout_loop aw mw gap n).1 ∧
    (∀ c, (thumbnail_layout_loop aw mw gap n).1 < c → c ≤ n → ¬ qualifies aw mw gap c) ∧
    ((∃ c, 1 ≤ c ∧ c ≤ n ∧ qualifies aw mw gap c) →
      qualifies aw mw gap (thumbnail_layout_loop aw mw gap n).1 ∧
      (thumbnail_layout_loop aw mw gap n).1 ≤ n ∧
      (thumbnail_layout_loop aw mw gap n).2 =
        cell_width aw gap (thumbnail_layout_loop aw mw gap n).1) ∧
    ((∀ c, 1 ≤ c → c ≤ n → ¬ qualifies aw mw gap c) →
      thumbnail_layout_loop aw mw gap n = (1, aw)) := by
  induction n with
  | zero =>
    refine ⟨le_rfl, fun c hc1 hc0 => absurd (lt_of_lt_of_le hc1 hc0) (by omega), ?_, fun _ => rfl⟩
    rintro ⟨c, hc1, hc0, -⟩
    omega
  | succ n ih =>
    have hq : qualifies aw mw gap (n + 1) ↔
        mw ≤ (aw - (n : ℚ) * gap) / ((n : ℚ) + 1) := by
      unfold qualifies
      rw [cell_width_succ]
    by_cases h : mw ≤ (aw - (n : ℚ) * gap) / ((n : ℚ) + 1)
    · have hres : thumbnail_layout_loop aw mw gap (n + 1) =
          (n + 1, (aw - (n : ℚ) * gap) / ((n : ℚ) + 1)) := by
        rw [thumbnail_layout_loop, if_pos h]
      rw [hres]
      refine ⟨by omega, fun c hc1 hc0 => by omega, fun _ => ⟨hq.mpr h, le_rfl, ?_⟩, fun hnone => ?_⟩
      · rw [cell_width_succ]
      · exact absurd (hq.mpr h) (hnone (n + 1) (by omega) le_rfl)
    · have hres : thumbnail_layout_loop aw mw gap (n + 1) =
          thumbnail_layout_loop aw mw gap n := by
        rw [thumbnail_layout_loop, if_neg h]
      have hnq : ¬ qualifies aw mw gap (n + 1) := fun hc => h (hq.mp hc)
      rw [hres]
      obtain ⟨ih1, ih2, ih3, ih4⟩ := ih
      refine ⟨ih1, fun c hc1 hc0 => ?_, fun hex => ?_, fun hnone => ?_⟩
      · rcases Nat.lt_or_ge c (n + 1) with hlt | hge
        · exact ih2 c hc1 (by omega)
        · have hc' : c = n + 1 := by omega
          subst hc'
          exact hnq
      · obtain ⟨c, hc1, hc0, hcq⟩ := hex
        have hcn : c ≤ n := by
          by_contra hc
          have hc' : c = n + 1 := by omega
          subst hc'
          exact hnq hcq
        obtain ⟨g1, g2, g3⟩ := ih3 ⟨c, hc1, hcn, hcq⟩
        exact ⟨g1, by omega, g3⟩
      · exact ih4 fun c hc1 hc0 => hnone c hc1 (by omega)

/-- Claim C7: when some column count in `1..=max_columns` qualifies (its
cell width is at least the minimum), the returned count qualifies, lies
within range, the returned width is its cell width, and no strictly larger
count within range qualifies; when no count qualifies, the layout falls
back to one column spanning the full available width. -/
theorem thumbnail_layout_spec (aw mw gap : ℚ) (maxc : ℕ) :
    ((∃ c, 1 ≤ c ∧ c ≤ maxc ∧ qualifies aw mw gap c) →
      qualifies aw mw gap (calculate_thumbnail_layout aw mw gap maxc).1 ∧
      (calculate_thumbnail_layout aw mw gap maxc).1 ≤ maxc ∧
      (calculate_thumbnail_layout aw mw gap maxc).2 =
        cell_width aw gap (calculate_thumbnail_layout aw mw gap maxc).1) ∧
    (∀ c, (calculate_thumbnail_layout aw mw gap maxc).1 < c → c ≤ maxc →
      ¬ qualifies aw mw gap c) ∧
    ((∀ c, 1 ≤ c → c ≤ maxc → ¬ qualifies aw mw gap c) →
      calculate_thumbnail_layout aw mw gap maxc = (1, aw)) := by
  obtain ⟨h1, h2, h3, h4⟩ := thumbnail_layout_loop_spec aw mw gap maxc
  exact ⟨h3, h2, h4⟩

/-- Witness for C7: with width 100, minimum 30, gap 10 and at most 4
columns, the chosen column count qualifies. -/
theorem thumbnail_layout_spec_witness :
    qualifies 100 30 10 (calculate_thumbnail_layout 100 30 10 4).1 :=
  ((thumbnail_layout_spec 100 30 10 4).1
    ⟨2, by norm_num, by norm_num, by norm_num [qualifies, cell_width]⟩).1

end Gallery
